import Mathlib

/-!
Shallow embedding of the termiLink note-taking core (src/termilink), covering
the data model (`models.py`), the note operations (`note_handler.py`) and the
vault-path validator, together with theorems settling the frozen claims about
the natural-language specification.

Modelling conventions:
* POSIX paths (Python `pathlib.Path`) are a flag `abs` plus the list of path
  components (`parts` beyond the root).  `pathlib` never stores `"."` or empty
  components, so component lists are taken verbatim.  `Path.resolve` is the
  lexical canonicalisation (absolutisation against the working directory and
  elimination of `".."`); symbolic links are outside the model.
* The ambient clock (`datetime.now()`) is threaded as an explicit `now`
  argument wherever the Python code calls it.
* `datetime.strftime` is implemented for the directive subset the repository
  uses (`%Y %m %d %H %M %S %%`); unknown directives pass through verbatim.
* The file store is a partial map from paths to contents; `mkdir` of parent
  directories is a no-op in this flat model.  For the recent-notes listing the
  store is instead a list of (path, mtime) entries, mtimes as integers, since
  only the ordering of `st_mtime` matters there.  Python `list.sort(key=...,
  reverse=True)` is a stable descending sort, modelled by stable insertion
  sort; `l[:limit]` keeps Python slice semantics including negative stops.
-/

namespace Termilink

/-- Python `str.startswith`, evaluated over the character lists. -/
def strIsPrefixOf (p s : String) : Bool := p.data.isPrefixOf s.data

/-- Python `str.endswith`, evaluated over the character lists. -/
def strEndsWith (s suffix : String) : Bool := suffix.data.isSuffixOf s.data

/-- A POSIX path: absolute flag plus components (Python `pathlib.PurePosixPath`). -/
structure Path where
  abs : Bool
  comps : List String
deriving DecidableEq

/-- String rendering of a path, as Python `str(path)` for POSIX paths. -/
def Path.toStr (p : Path) : String :=
  if p.abs then "/" ++ String.intercalate "/" p.comps
  else String.intercalate "/" p.comps

/-- Python `p / q`: if the right operand is absolute it replaces the left. -/
def Path.join (p q : Path) : Path :=
  if q.abs then q else ⟨p.abs, p.comps ++ q.comps⟩

/-- Python `p / s` for a single-component string; `pathlib` ignores empty segments. -/
def Path.joinStr (p : Path) (s : String) : Path :=
  if s = "" then p else ⟨p.abs, p.comps ++ [s]⟩

/-- Python `path.name`: the final component, or `""` when there is none. -/
def Path.name (p : Path) : String :=
  (p.comps.getLast?).getD ""

/-- Lexical normalisation of components: each `".."` removes the previous
component (at the root it is a no-op, as for POSIX `/..`). -/
def normComps (cs : List String) : List String :=
  cs.foldl (fun acc c => if c = ".." then acc.dropLast else acc ++ [c]) []

/-- Python `path.resolve()` (lexical part): absolutise against the working
directory and eliminate `".."` components. -/
def Path.resolve (p : Path) (cwd : Path) : Path :=
  ⟨true, normComps (if p.abs then p.comps else cwd.comps ++ p.comps)⟩

/-- Component-wise containment of the resolved path inside the resolved root:
the formal reading of a path lying within the vault root. -/
def isWithin (cwd root p : Path) : Bool :=
  (root.resolve cwd).comps.isPrefixOf (p.resolve cwd).comps

/-- A wall-clock instant, the fields of Python `datetime` that the repository
renders (microseconds are never rendered by the used format strings). -/
structure DateTime where
  year : Nat
  month : Nat
  day : Nat
  hour : Nat
  minute : Nat
  second : Nat
deriving DecidableEq

/-- Zero-padded two-digit decimal rendering. -/
def pad2 (n : Nat) : String :=
  if n < 10 then "0" ++ toString n else toString n

/-- Zero-padded four-digit decimal rendering, as `%Y` on Linux. -/
def pad4 (n : Nat) : String :=
  if n < 10 then "000" ++ toString n
  else if n < 100 then "00" ++ toString n
  else if n < 1000 then "0" ++ toString n
  else toString n

/-- Directive expansion for `strftime`, over the format string's characters. -/
def strftimeAux (d : DateTime) : List Char → String
  | [] => ""
  | '%' :: c :: rest =>
    (match c with
     | 'Y' => pad4 d.year
     | 'm' => pad2 d.month
     | 'd' => pad2 d.day
     | 'H' => pad2 d.hour
     | 'M' => pad2 d.minute
     | 'S' => pad2 d.second
     | '%' => "%"
     | c => "%" ++ String.singleton c) ++ strftimeAux d rest
  | c :: rest => String.singleton c ++ strftimeAux d rest

/-- Python `datetime.strftime` for the directive subset the repository uses. -/
def strftime (d : DateTime) (fmt : String) : String :=
  strftimeAux d fmt.data

/-- Python `datetime.isoformat()` for whole-second instants. -/
def isoformat (d : DateTime) : String :=
  pad4 d.year ++ "-" ++ pad2 d.month ++ "-" ++ pad2 d.day ++ "T" ++
    pad2 d.hour ++ ":" ++ pad2 d.minute ++ ":" ++ pad2 d.second

/-- Note format types (`models.NoteFormat`). -/
inductive NoteFormat where
  | plain
  | timestamp
  | bullet
  | task
deriving DecidableEq

/-- Configuration model (`models.Config`).  `vault_path` is stored resolved by
the validator; `daily_notes_path` is the parsed form of the configured
relative-path string. -/
structure Config where
  vault_path : Path
  daily_notes_path : Path
  daily_note_format : String
  default_format : NoteFormat
  include_timestamp : Bool
  timestamp_format : String
  append_newline : Bool
deriving DecidableEq

/-- A note request (`models.Note`). -/
structure Note where
  content : String
  format_type : NoteFormat
  tags : List String
  timestamp : Option DateTime
  target_file : Option Path
  use_daily_note : Bool

/-- Formatter (`models.Note.format_content`): renders the note's content
according to its format type, timestamp and tags. -/
def Note.format_content (note : Note) (include_timestamp : Bool)
    (timestamp_format : String) : String :=
  let timestamp_str :=
    match include_timestamp, note.timestamp with
    | true, some ts => strftime ts timestamp_format
    | _, _ => ""
  let tags_str :=
    if note.tags.isEmpty then ""
    else String.intercalate " " (note.tags.map (fun t => "#" ++ t))
  match note.format_type with
  | NoteFormat.plain =>
    String.intercalate " "
      (([timestamp_str, note.content, tags_str]).filter (fun part => part ≠ ""))
  | NoteFormat.timestamp =>
    if timestamp_str ≠ "" then
      String.intercalate " - "
        ([("**" ++ timestamp_str ++ "**"), note.content] ++
          (if tags_str ≠ "" then [tags_str] else []))
    else note.content
  | NoteFormat.bullet =>
    let parts := if timestamp_str ≠ "" then [timestamp_str, note.content]
      else [note.content]
    let result := "- " ++ String.intercalate " - " parts
    if tags_str ≠ "" then result ++ " " ++ tags_str else result
  | NoteFormat.task =>
    let parts := if timestamp_str ≠ "" then [timestamp_str, note.content]
      else [note.content]
    let result := "- [ ] " ++ String.intercalate " - " parts
    if tags_str ≠ "" then result ++ " " ++ tags_str else result

/-- The file store for the append and create operations: a partial map from
paths to file contents (`none` means the file is absent). -/
abbrev FS := Path → Option String

/-- Read a note file (`note_handler.read_note_file`): the empty string when
the file is absent, its full contents otherwise. -/
def read_note_file (fs : FS) (file_path : Path) : String :=
  (fs file_path).getD ""

/-- Write a note file (`note_handler.write_note_file`), fully replacing any
previous contents; parent-directory creation is a no-op in this model. -/
def write_note_file (fs : FS) (file_path : Path) (content : String) : FS :=
  fun q => if q = file_path then some content else fs q

/-- Daily note path (`note_handler.get_daily_note_path`):
vault root / daily-notes dir / (date formatted with the daily pattern) + ".md".
Callers that omit the date pass the ambient clock here. -/
def get_daily_note_path (config : Config) (date : DateTime) : Path :=
  (config.vault_path.join config.daily_notes_path).joinStr
    (strftime date config.daily_note_format ++ ".md")

/-- Target selection of `note_handler.append_to_note` (its lines 80-86): the
explicit argument, else the daily note (dated by the current clock), else the
note's target file joined under the vault, else again the daily note. -/
def resolve_candidate (config : Config) (note : Note) (target_path : Option Path)
    (now : DateTime) : Path :=
  match target_path with
  | some p => p
  | none =>
    if note.use_daily_note then get_daily_note_path config now
    else
      match note.target_file with
      | some tf => config.vault_path.join tf
      | none => get_daily_note_path config now

/-- The containment check of `note_handler.append_to_note` (its line 89): the
string form of the resolved vault root is a string prefix of the string form
of the resolved target. -/
def containment_ok (config : Config) (cwd : Path) (p : Path) : Bool :=
  strIsPrefixOf ((config.vault_path.resolve cwd).toStr) ((p.resolve cwd).toStr)

/-- Target resolution with the containment repair (lines 80-90 of
`note_handler.append_to_note`): when the check fails, the directory component
is discarded and the basename is placed directly under the vault root. -/
def resolve_target (config : Config) (note : Note) (target_path : Option Path)
    (now : DateTime) (cwd : Path) : Path :=
  let cand := resolve_candidate config note target_path now
  if containment_ok config cwd cand then cand
  else config.vault_path.joinStr cand.name

/-- Append operation (`note_handler.append_to_note`): resolves the target,
reads existing content, renders the fragment, merges per the newline policy
(with a date frontmatter for a first write to a daily note carrying a
timestamp), writes back, and returns the resolved path with the new store. -/
def append_to_note (config : Config) (note : Note) (target_path : Option Path)
    (now : DateTime) (cwd : Path) (fs : FS) : Path × FS :=
  let target := resolve_target config note target_path now cwd
  let existing_content := read_note_file fs target
  let formatted_note :=
    note.format_content config.include_timestamp config.timestamp_format
  let new_content :=
    if existing_content ≠ "" then
      if config.append_newline then
        existing_content ++ "\n" ++ formatted_note ++ "\n"
      else
        existing_content ++ formatted_note ++ "\n"
    else
      match note.use_daily_note, note.timestamp with
      | true, some ts =>
        "---\ndate: " ++ strftime ts "%Y-%m-%d" ++ "\n---\n\n" ++
          formatted_note ++ "\n"
      | _, _ => formatted_note ++ "\n"
  (target, write_note_file fs target new_content)

/-- Create operation (`note_handler.create_note_file`): normalises the
filename to a ".md" suffix, places it under the vault (and the subdirectory
when one is supplied and non-empty, matching Python string truthiness), and
writes a `created:` frontmatter plus the content, overwriting unconditionally. -/
def create_note_file (config : Config) (filename : String) (content : String)
    (subdirectory : Option String) (now : DateTime) (fs : FS) : Path × FS :=
  let filename2 := if strEndsWith filename ".md" then filename else filename ++ ".md"
  let target :=
    match subdirectory with
    | some s =>
      if s ≠ "" then (config.vault_path.joinStr s).joinStr filename2
      else config.vault_path.joinStr filename2
    | none => config.vault_path.joinStr filename2
  let frontmatter := "---\ncreated: " ++ isoformat now ++ "\n---\n\n"
  (target, write_note_file fs target (frontmatter ++ content ++ "\n"))

/-- A file entry for the recent-notes listing: a path together with its
`st_mtime` (only the ordering of modification times matters, so an integer). -/
structure FileEnt where
  path : Path
  mtime : Int
deriving DecidableEq

/-- Python `vault.rglob("*.md")` over a file store given as a list of entries:
the files strictly under the vault root whose final component carries the
".md" suffix. -/
def rglob_md (vault : Path) (files : List FileEnt) : List FileEnt :=
  files.filter (fun e =>
    e.path.abs == vault.abs && vault.comps.isPrefixOf e.path.comps &&
      decide (e.path ≠ vault) && strEndsWith e.path.name ".md")

/-- Stable descending insertion by mtime: an element is placed before the
first entry with a strictly smaller key, keeping earlier equal-key entries
first, as Python's stable `list.sort(key=..., reverse=True)` does. -/
def insertByMtimeDesc (x : FileEnt) : List FileEnt → List FileEnt
  | [] => [x]
  | y :: ys =>
    if y.mtime ≤ x.mtime then x :: y :: ys
    else y :: insertByMtimeDesc x ys

/-- Stable descending sort by mtime (the model of Python's stable
`list.sort(key=lambda p: mtime, reverse=True)`). -/
def sortByMtimeDesc : List FileEnt → List FileEnt
  | [] => []
  | x :: xs => insertByMtimeDesc x (sortByMtimeDesc xs)

/-- Python slice `l[:k]` for an integer stop: a non-negative stop keeps the
first `k` entries, a negative stop drops the last `-k`. -/
def pySliceTo (l : List FileEnt) (k : Int) : List FileEnt :=
  if 0 ≤ k then l.take k.toNat else l.take (l.length - (-k).toNat)

/-- Recent-notes listing (`note_handler.list_recent_notes`): all ".md" files
under the vault root, sorted descending by modification time, truncated with
Python slice semantics to `limit`. -/
def list_recent_notes (config : Config) (files : List FileEnt) (limit : Int) :
    List FileEnt :=
  pySliceTo (sortByMtimeDesc (rglob_md config.vault_path files)) limit

/-- Existence and directory metadata of the file system, for the vault-path
validator. -/
structure FSMeta where
  pathExists : Path → Bool
  isDir : Path → Bool

/-- Vault-path validator (`models.Config.validate_vault_path`): rejects a
non-existent or non-directory vault path, and stores the resolved path. -/
def validate_vault_path (m : FSMeta) (cwd : Path) (v : Path) :
    Except String Path :=
  if m.pathExists v = false then
    Except.error ("Vault path does not exist: " ++ v.toStr)
  else if m.isDir v = false then
    Except.error ("Vault path is not a directory: " ++ v.toStr)
  else Except.ok (v.resolve cwd)

/-- Construction of a configuration object (`models.Config`): pydantic runs
`validate_vault_path` on the supplied vault path; the remaining fields have no
failing validators. -/
def mkConfig (m : FSMeta) (cwd : Path) (vault_path : Path)
    (daily_notes_path : Path) (daily_note_format : String)
    (default_format : NoteFormat) (include_timestamp : Bool)
    (timestamp_format : String) (append_newline : Bool) :
    Except String Config :=
  match validate_vault_path m cwd vault_path with
  | Except.ok p =>
    Except.ok ⟨p, daily_notes_path, daily_note_format, default_format,
      include_timestamp, timestamp_format, append_newline⟩
  | Except.error e => Except.error e

/-! Concrete instances used to instantiate the theorems below. -/

/-- The filesystem root, used as working directory for resolution. -/
def rootPath : Path := ⟨true, []⟩

/-- An empty file store. -/
def fsEmpty : FS := fun _ => none

/-- A sample instant: 2024-01-15 14:30:00. -/
def ts1430 : DateTime := ⟨2024, 1, 15, 14, 30, 0⟩

/-- A sample instant on the following day: 2024-01-16 09:00:00. -/
def now16 : DateTime := ⟨2024, 1, 16, 9, 0, 0⟩

/-- A default-valued configuration with vault root `/v`. -/
def cfgV : Config :=
  ⟨⟨true, ["v"]⟩, ⟨false, ["Daily Notes"]⟩, "%Y-%m-%d", NoteFormat.timestamp,
    true, "%H:%M", true⟩

/-- A default-valued configuration with vault root `/home/vault`. -/
def cfgHV : Config :=
  ⟨⟨true, ["home", "vault"]⟩, ⟨false, ["Daily Notes"]⟩, "%Y-%m-%d",
    NoteFormat.timestamp, true, "%H:%M", true⟩

/-- A daily-note request carrying the explicit timestamp `ts1430`. -/
def noteD : Note := ⟨"x", NoteFormat.plain, [], some ts1430, none, true⟩

/-- A daily-note request carrying no timestamp. -/
def noteNoTs : Note := ⟨"Test note", NoteFormat.timestamp, [], none, none, true⟩

/-- A request whose target file climbs out of the vault into a sibling
directory whose name extends the vault root's name. -/
def noteEsc : Note :=
  ⟨"x", NoteFormat.plain, [], some ts1430, some ⟨false, ["..", "vault2", "x.md"]⟩,
    false⟩

/-- A request whose target file is the absolute path `/etc/passwd`. -/
def noteAbs : Note :=
  ⟨"x", NoteFormat.plain, [], some ts1430, some ⟨true, ["etc", "passwd"]⟩, false⟩

/-- A request with the daily-note flag off and no explicit target file. -/
def noteOff : Note := ⟨"x", NoteFormat.plain, [], some ts1430, none, false⟩

/-- The daily note path of `cfgV` for `now16`. -/
def pEx : Path := get_daily_note_path cfgV now16

/-- A store holding existing content at `pEx`. -/
def fsEx : FS := write_note_file fsEmpty pEx "Existing"

/-- A store holding stale content at the path `create_note_file` targets for
filename "new-note" under `cfgV`. -/
def fsPre : FS := write_note_file fsEmpty (cfgV.vault_path.joinStr "new-note.md") "OLD"

/-- Two ".md" files directly under the vault root `/v`. -/
def filesAB : List FileEnt :=
  [⟨⟨true, ["v", "a.md"]⟩, 1⟩, ⟨⟨true, ["v", "b.md"]⟩, 2⟩]

/-- Metadata where no path exists. -/
def mAbsent : FSMeta := ⟨fun _ => false, fun _ => false⟩

/-- Metadata where every path is an existing directory. -/
def mAll : FSMeta := ⟨fun _ => true, fun _ => true⟩

/-- A sample vault path for the configuration validator. -/
def vP : Path := ⟨true, ["v"]⟩

/-- A sample daily-notes relative path. -/
def dnpD : Path := ⟨false, ["Daily Notes"]⟩

/-- The configuration produced by a successful construction from `vP`. -/
def cfgOk : Config :=
  ⟨vP.resolve rootPath, dnpD, "%Y-%m-%d", NoteFormat.timestamp, true, "%H:%M", true⟩

/-! Helper lemmas about the descending sort. -/

/-- Membership after insertion comes from the inserted element or the list. -/
theorem mem_of_mem_insertByMtimeDesc {x a : FileEnt} :
    ∀ {l : List FileEnt}, a ∈ insertByMtimeDesc x l → a = x ∨ a ∈ l := by
  intro l
  induction l with
  | nil =>
    intro h
    simp only [insertByMtimeDesc, List.mem_singleton] at h
    exact Or.inl h
  | cons y ys ih =>
    intro h
    simp only [insertByMtimeDesc] at h
    by_cases hc : y.mtime ≤ x.mtime
    · rw [if_pos hc] at h
      rcases List.mem_cons.mp h with h1 | h2
      · exact Or.inl h1
      · exact Or.inr h2
    · rw [if_neg hc] at h
      rcases List.mem_cons.mp h with h1 | h2
      · exact Or.inr (List.mem_cons.mpr (Or.inl h1))
      · rcases ih h2 with h3 | h4
        · exact Or.inl h3
        · exact Or.inr (List.mem_cons.mpr (Or.inr h4))

/-- Membership in the sorted list comes from the original list. -/
theorem mem_of_mem_sortByMtimeDesc {a : FileEnt} :
    ∀ {l : List FileEnt}, a ∈ sortByMtimeDesc l → a ∈ l := by
  intro l
  induction l with
  | nil => intro h; simp [sortByMtimeDesc] at h
  | cons y ys ih =>
    intro h
    simp only [sortByMtimeDesc] at h
    rcases mem_of_mem_insertByMtimeDesc h with h1 | h2
    · exact List.mem_cons.mpr (Or.inl h1)
    · exact List.mem_cons.mpr (Or.inr (ih h2))

/-- Insertion preserves the descending pairwise ordering by mtime. -/
theorem pairwise_insertByMtimeDesc {x : FileEnt} :
    ∀ {l : List FileEnt},
      List.Pairwise (fun a b => b.mtime ≤ a.mtime) l →
      List.Pairwise (fun a b => b.mtime ≤ a.mtime) (insertByMtimeDesc x l) := by
  intro l
  induction l with
  | nil => intro _; simp [insertByMtimeDesc]
  | cons y ys ih =>
    intro h
    rcases List.pairwise_cons.mp h with ⟨hy, hys⟩
    simp only [insertByMtimeDesc]
    by_cases hc : y.mtime ≤ x.mtime
    · rw [if_pos hc]
      refine List.pairwise_cons.mpr ⟨?_, h⟩
      intro b hb
      rcases List.mem_cons.mp hb with h1 | h2
      · rw [h1]; exact hc
      · exact le_trans (hy b h2) hc
    · rw [if_neg hc]
      refine List.pairwise_cons.mpr ⟨?_, ih hys⟩
      intro b hb
      rcases mem_of_mem_insertByMtimeDesc hb with h1 | h2
      · rw [h1]; exact le_of_not_le hc
      · exact hy b h2

/-- The stable descending sort produces a descending pairwise ordering. -/
theorem pairwise_sortByMtimeDesc :
    ∀ l : List FileEnt,
      List.Pairwise (fun a b => b.mtime ≤ a.mtime) (sortByMtimeDesc l) := by
  intro l
  induction l with
  | nil => simp [sortByMtimeDesc]
  | cons y ys ih => exact pairwise_insertByMtimeDesc ih

/-- Python slicing always yields a sublist. -/
theorem pySliceTo_sublist (l : List FileEnt) (k : Int) :
    (pySliceTo l k).Sublist l := by
  unfold pySliceTo
  split
  · exact List.take_sublist _ _
  · exact List.take_sublist _ _

/-- C5: for content "Test note", a timestamp rendering as "14:30" and
timestamp inclusion enabled, the formatter produces exactly the five outputs
the specification lists for the plain, timestamp, bullet, task and tagged
timestamp cases. -/
theorem format_content_examples :
    Note.format_content ⟨"Test note", NoteFormat.plain, [], some ts1430, none, true⟩
        true "%H:%M" = "14:30 Test note"
    ∧ Note.format_content ⟨"Test note", NoteFormat.timestamp, [], some ts1430, none, true⟩
        true "%H:%M" = "**14:30** - Test note"
    ∧ Note.format_content ⟨"Test note", NoteFormat.bullet, [], some ts1430, none, true⟩
        true "%H:%M" = "- 14:30 - Test note"
    ∧ Note.format_content ⟨"Test note", NoteFormat.task, [], some ts1430, none, true⟩
        true "%H:%M" = "- [ ] 14:30 - Test note"
    ∧ Note.format_content
        ⟨"Test note", NoteFormat.timestamp, ["important", "work"], some ts1430, none, true⟩
        true "%H:%M" = "**14:30** - Test note - #important #work" := by
  refine ⟨rfl, rfl, rfl, rfl, rfl⟩

/-- C6: in timestamp mode, disabling timestamp inclusion (or carrying no
timestamp) returns the bare content unmodified, with no tags rendered. -/
theorem format_timestamp_bare (content : String) (tags : List String)
    (ts : Option DateTime) (tf : Option Path) (udn : Bool) (inc : Bool)
    (fmt : String) :
    Note.format_content ⟨content, NoteFormat.timestamp, tags, ts, tf, udn⟩
        false fmt = content
    ∧ Note.format_content ⟨content, NoteFormat.timestamp, tags, none, tf, udn⟩
        inc fmt = content := by
  constructor
  · cases ts <;> simp [Note.format_content]
  · cases inc <;> simp [Note.format_content]

/-- Instantiation of `format_timestamp_bare` at concrete inputs. -/
theorem format_timestamp_bare_witness :
    Note.format_content
        ⟨"Test note", NoteFormat.timestamp, ["important"], some ts1430, none, true⟩
        false "%H:%M" = "Test note"
    ∧ Note.format_content
        ⟨"Test note", NoteFormat.timestamp, ["important"], none, none, true⟩
        true "%H:%M" = "Test note" :=
  format_timestamp_bare "Test note" ["important"] (some ts1430) none true true "%H:%M"

/-- C1 counterexample: for the vault root `/home/vault` and the traversal
target `../vault2/x.md`, the string-prefix containment check passes (the
resolved target `/home/vault2/x.md` extends the string `/home/vault`), so no
repair happens and the path returned by the append operation does not lie
within the vault root. -/
theorem append_escape_counterexample :
    isWithin rootPath cfgHV.vault_path
      (append_to_note cfgHV noteEsc none ts1430 rootPath fsEmpty).1 = false := by
  decide

/-- C1 amended: the containment guarantee of the append operation is the
string-prefix check of line 89: when the string form of the resolved
candidate target extends the string form of the resolved vault root the
candidate is returned unchanged, and otherwise the directory component is
discarded and the file of the same basename directly under the vault root is
targeted instead, without raising an error. -/
theorem append_containment_spec (config : Config) (note : Note)
    (tp : Option Path) (now : DateTime) (cwd : Path) (fs : FS) :
    (containment_ok config cwd (resolve_candidate config note tp now) = true →
      (append_to_note config note tp now cwd fs).1
          = resolve_candidate config note tp now
      ∧ strIsPrefixOf ((config.vault_path.resolve cwd).toStr)
          (((append_to_note config note tp now cwd fs).1.resolve cwd).toStr)
          = true)
    ∧ (containment_ok config cwd (resolve_candidate config note tp now) = false →
      (append_to_note config note tp now cwd fs).1
        = config.vault_path.joinStr (resolve_candidate config note tp now).name) := by
  constructor
  · intro h
    have h1 : (append_to_note config note tp now cwd fs).1
        = resolve_candidate config note tp now := by
      simp [append_to_note, resolve_target, h]
    refine ⟨h1, ?_⟩
    rw [h1]
    simpa [containment_ok] using h
  · intro h
    simp [append_to_note, resolve_target, h]

/-- Instantiation of `append_containment_spec`: the traversal target passes
the string check and is kept, while the absolute target `/etc/passwd` fails
it and collapses to `/home/vault/passwd`. -/
theorem append_containment_spec_witness :
    ((append_to_note cfgHV noteEsc none ts1430 rootPath fsEmpty).1
        = resolve_candidate cfgHV noteEsc none ts1430
      ∧ strIsPrefixOf ((cfgHV.vault_path.resolve rootPath).toStr)
          (((append_to_note cfgHV noteEsc none ts1430 rootPath fsEmpty).1.resolve
            rootPath).toStr) = true)
    ∧ (append_to_note cfgHV noteAbs none ts1430 rootPath fsEmpty).1
        = cfgHV.vault_path.joinStr (resolve_candidate cfgHV noteAbs none ts1430).name :=
  ⟨(append_containment_spec cfgHV noteEsc none ts1430 rootPath fsEmpty).1 (by decide),
   (append_containment_spec cfgHV noteAbs none ts1430 rootPath fsEmpty).2 (by decide)⟩

/-- C2 counterexample: a daily-note request carrying the explicit timestamp
2024-01-15 appended at clock time 2024-01-16 is not resolved to the path named
by the request's own timestamp date. -/
theorem append_daily_date_counterexample :
    noteD.timestamp = some ts1430
    ∧ (append_to_note cfgV noteD none now16 rootPath fsEmpty).1
        ≠ (cfgV.vault_path.join cfgV.daily_notes_path).joinStr
            (strftime ts1430 cfgV.daily_note_format ++ ".md") := by
  exact ⟨rfl, by decide⟩

/-- C2 amended: a request resolving against the daily note targets
vault root / daily-notes dir / (the current clock date formatted with the
daily pattern) + ".md" — the file name is derived from the clock at append
time, not from the request's timestamp. -/
theorem append_daily_uses_clock (config : Config) (note : Note)
    (now : DateTime) (cwd : Path) (fs : FS)
    (h1 : note.use_daily_note = true)
    (h2 : containment_ok config cwd (get_daily_note_path config now) = true) :
    (append_to_note config note none now cwd fs).1 = get_daily_note_path config now
    ∧ get_daily_note_path config now
      = (config.vault_path.join config.daily_notes_path).joinStr
          (strftime now config.daily_note_format ++ ".md") := by
  constructor
  · simp [append_to_note, resolve_target, resolve_candidate, h1, h2]
  · rfl

/-- Instantiation of `append_daily_uses_clock` at concrete inputs. -/
theorem append_daily_uses_clock_witness :
    (append_to_note cfgV noteD none now16 rootPath fsEmpty).1
        = get_daily_note_path cfgV now16
    ∧ get_daily_note_path cfgV now16
      = (cfgV.vault_path.join cfgV.daily_notes_path).joinStr
          (strftime now16 cfgV.daily_note_format ++ ".md") :=
  append_daily_uses_clock cfgV noteD now16 rootPath fsEmpty rfl (by decide)

/-- C3 counterexample: a daily-note request carrying no timestamp, written to
an absent daily file, produces content with no frontmatter block at all. -/
theorem append_daily_no_frontmatter_counterexample :
    noteNoTs.use_daily_note = true
    ∧ fsEmpty (append_to_note cfgV noteNoTs none now16 rootPath fsEmpty).1 = none
    ∧ (append_to_note cfgV noteNoTs none now16 rootPath fsEmpty).2
        ((append_to_note cfgV noteNoTs none now16 rootPath fsEmpty).1)
        = some ("Test note" ++ "\n")
    ∧ strIsPrefixOf "---" ("Test note" ++ "\n") = false := by
  decide

/-- C3 amended: for a daily-note request carrying a non-None timestamp whose
target file is absent or has empty existing content, the content written is
exactly the frontmatter block dated by the note's timestamp, followed by the
rendered fragment and a trailing newline. -/
theorem append_daily_frontmatter (config : Config) (note : Note)
    (tp : Option Path) (now : DateTime) (cwd : Path) (fs : FS) (ts : DateTime)
    (hud : note.use_daily_note = true)
    (hts : note.timestamp = some ts)
    (hempty : read_note_file fs ((append_to_note config note tp now cwd fs).1) = "") :
    (append_to_note config note tp now cwd fs).2
        ((append_to_note config note tp now cwd fs).1)
      = some ("---\ndate: " ++ strftime ts "%Y-%m-%d" ++ "\n---\n\n" ++
          note.format_content config.include_timestamp config.timestamp_format
          ++ "\n") := by
  have h1 : (append_to_note config note tp now cwd fs).1
      = resolve_target config note tp now cwd := rfl
  rw [h1] at hempty
  simp [append_to_note, write_note_file, hempty, hud, hts]

/-- Instantiation of `append_daily_frontmatter` at concrete inputs. -/
theorem append_daily_frontmatter_witness :
    (append_to_note cfgV noteD none now16 rootPath fsEmpty).2
        ((append_to_note cfgV noteD none now16 rootPath fsEmpty).1)
      = some ("---\ndate: " ++ strftime ts1430 "%Y-%m-%d" ++ "\n---\n\n" ++
          noteD.format_content cfgV.include_timestamp cfgV.timestamp_format
          ++ "\n") :=
  append_daily_frontmatter cfgV noteD none now16 rootPath fsEmpty ts1430
    rfl rfl (by decide)

/-- C4: the append operation reads the existing content as the empty string
when the target file is absent and as the full contents otherwise, and for
non-empty existing content writes exactly existing + newline + fragment +
newline when the append-newline flag is set, and existing + fragment +
newline when it is not. -/
theorem append_read_merge (config : Config) (note : Note) (tp : Option Path)
    (now : DateTime) (cwd : Path) (fs : FS) :
    (∀ p : Path, fs p = none → read_note_file fs p = "")
    ∧ (∀ (p : Path) (c : String), fs p = some c → read_note_file fs p = c)
    ∧ (read_note_file fs ((append_to_note config note tp now cwd fs).1) ≠ "" →
        (append_to_note config note tp now cwd fs).2
            ((append_to_note config note tp now cwd fs).1)
          = some (if config.append_newline then
              read_note_file fs ((append_to_note config note tp now cwd fs).1)
                ++ "\n"
                ++ note.format_content config.include_timestamp
                    config.timestamp_format ++ "\n"
            else
              read_note_file fs ((append_to_note config note tp now cwd fs).1)
                ++ note.format_content config.include_timestamp
                    config.timestamp_format ++ "\n")) := by
  refine ⟨?_, ?_, ?_⟩
  · intro p hp
    simp [read_note_file, hp]
  · intro p c hp
    simp [read_note_file, hp]
  · intro h
    have h1 : (append_to_note config note tp now cwd fs).1
        = resolve_target config note tp now cwd := rfl
    rw [h1] at h ⊢
    by_cases han : config.append_newline = true
    · simp [append_to_note, write_note_file, h, han]
    · simp [append_to_note, write_note_file, h, han]

/-- Instantiation of `append_read_merge`: an absent file reads as empty, a
present file reads as its contents, and appending to existing content
produces existing + newline + fragment + newline under the default policy. -/
theorem append_read_merge_witness :
    read_note_file fsEx rootPath = ""
    ∧ read_note_file fsEx pEx = "Existing"
    ∧ (append_to_note cfgV noteD none now16 rootPath fsEx).2
        ((append_to_note cfgV noteD none now16 rootPath fsEx).1)
      = some (if cfgV.append_newline then
          read_note_file fsEx ((append_to_note cfgV noteD none now16 rootPath fsEx).1)
            ++ "\n"
            ++ noteD.format_content cfgV.include_timestamp cfgV.timestamp_format
            ++ "\n"
        else
          read_note_file fsEx ((append_to_note cfgV noteD none now16 rootPath fsEx).1)
            ++ noteD.format_content cfgV.include_timestamp cfgV.timestamp_format
            ++ "\n") :=
  ⟨(append_read_merge cfgV noteD none now16 rootPath fsEx).1 rootPath (by decide),
   (append_read_merge cfgV noteD none now16 rootPath fsEx).2.1 pEx "Existing" (by decide),
   (append_read_merge cfgV noteD none now16 rootPath fsEx).2.2 (by decide)⟩

/-- C7: the create operation returns vault root / subdirectory? / filename
with a ".md" suffix appended when the filename lacks one, and writes exactly
the `created:` frontmatter block followed by the content and a trailing
newline, regardless of (and overwriting) any previous contents of the store. -/
theorem create_note_file_spec (config : Config) (filename content : String)
    (subdirectory : Option String) (now : DateTime) (fs : FS) :
    (create_note_file config filename content subdirectory now fs).1
      = (match subdirectory with
         | some s =>
           if s ≠ "" then
             (config.vault_path.joinStr s).joinStr
               (if strEndsWith filename ".md" then filename else filename ++ ".md")
           else
             config.vault_path.joinStr
               (if strEndsWith filename ".md" then filename else filename ++ ".md")
         | none =>
           config.vault_path.joinStr
             (if strEndsWith filename ".md" then filename else filename ++ ".md"))
    ∧ (create_note_file config filename content subdirectory now fs).2
        ((create_note_file config filename content subdirectory now fs).1)
      = some ("---\ncreated: " ++ isoformat now ++ "\n---\n\n" ++ content ++ "\n") := by
  constructor
  · cases subdirectory <;> rfl
  · simp [create_note_file, write_note_file]

/-- Instantiation of `create_note_file_spec` on a store already holding stale
content at the target path, exhibiting the unconditional overwrite. -/
theorem create_note_file_spec_witness :
    (create_note_file cfgV "new-note" "Initial content" none now16 fsPre).1
      = cfgV.vault_path.joinStr
          (if strEndsWith "new-note" ".md" then "new-note" else "new-note" ++ ".md")
    ∧ (create_note_file cfgV "new-note" "Initial content" none now16 fsPre).2
        ((create_note_file cfgV "new-note" "Initial content" none now16 fsPre).1)
      = some ("---\ncreated: " ++ isoformat now16 ++ "\n---\n\n"
          ++ "Initial content" ++ "\n") :=
  create_note_file_spec cfgV "new-note" "Initial content" none now16 fsPre

/-- C8 counterexample: with two ".md" files in the vault, the listing with
limit -1 returns one entry, which is more than the limit. -/
theorem list_recent_negative_limit_counterexample :
    (list_recent_notes cfgV filesAB (-1)).length = 1
    ∧ ¬ (((list_recent_notes cfgV filesAB (-1)).length : Int) ≤ -1) := by
  decide

/-- C8 amended: for every non-negative limit, the recent-notes listing
returns at most limit entries, every returned entry carries the ".md" suffix
and lies under the vault root, and the entries are in descending order of
modification time. -/
theorem list_recent_notes_spec (config : Config) (files : List FileEnt)
    (limit : Int) (h : 0 ≤ limit) :
    ((list_recent_notes config files limit).length : Int) ≤ limit
    ∧ (∀ e ∈ list_recent_notes config files limit,
        strEndsWith e.path.name ".md" = true
        ∧ e.path.abs = config.vault_path.abs
        ∧ config.vault_path.comps.isPrefixOf e.path.comps = true)
    ∧ List.Pairwise (fun a b => b.mtime ≤ a.mtime)
        (list_recent_notes config files limit) := by
  refine ⟨?_, ?_, ?_⟩
  · have h1 : (list_recent_notes config files limit).length ≤ limit.toNat := by
      unfold list_recent_notes pySliceTo
      rw [if_pos h]
      simp
    omega
  · intro e he
    have h2 : e ∈ sortByMtimeDesc (rglob_md config.vault_path files) :=
      (pySliceTo_sublist _ _).subset he
    have h3 : e ∈ rglob_md config.vault_path files :=
      mem_of_mem_sortByMtimeDesc h2
    have h4 := (List.mem_filter.mp h3).2
    simp only [Bool.and_eq_true, beq_iff_eq, decide_eq_true_eq] at h4
    exact ⟨h4.2, h4.1.1.1, h4.1.1.2⟩
  · exact List.Pairwise.sublist (pySliceTo_sublist _ _)
      (pairwise_sortByMtimeDesc _)

/-- Instantiation of `list_recent_notes_spec` at limit 1. -/
theorem list_recent_notes_spec_witness :
    ((list_recent_notes cfgV filesAB 1).length : Int) ≤ 1 :=
  (list_recent_notes_spec cfgV filesAB 1 (by decide)).1

/-- C9: constructing a configuration object fails exactly when the supplied
vault path does not exist or is not a directory, and a successful
construction stores the resolved (absolute) vault path. -/
theorem config_construction_spec (m : FSMeta) (cwd v dnp : Path)
    (dnf : String) (df : NoteFormat) (it : Bool) (tfm : String) (an : Bool) :
    ((∃ e, mkConfig m cwd v dnp dnf df it tfm an = Except.error e)
      ↔ (m.pathExists v = false ∨ m.isDir v = false))
    ∧ (∀ c, mkConfig m cwd v dnp dnf df it tfm an = Except.ok c →
        c.vault_path = v.resolve cwd ∧ c.vault_path.abs = true) := by
  cases hpe : m.pathExists v <;> cases hid : m.isDir v <;>
    simp [mkConfig, validate_vault_path, hpe, hid, Path.resolve]

/-- Instantiation of `config_construction_spec`: construction fails when no
path exists, and succeeds storing the resolved path when the vault is an
existing directory. -/
theorem config_construction_spec_witness :
    (∃ e, mkConfig mAbsent rootPath vP dnpD "%Y-%m-%d" NoteFormat.timestamp
        true "%H:%M" true = Except.error e)
    ∧ (cfgOk.vault_path = vP.resolve rootPath ∧ cfgOk.vault_path.abs = true) :=
  ⟨(config_construction_spec mAbsent rootPath vP dnpD "%Y-%m-%d"
      NoteFormat.timestamp true "%H:%M" true).1.mpr (Or.inl rfl),
   (config_construction_spec mAll rootPath vP dnpD "%Y-%m-%d"
      NoteFormat.timestamp true "%H:%M" true).2 cfgOk rfl⟩

/-- C10: a request with the daily-note flag false and no explicit target file
still falls back to the daily note path, and a first write to that absent
file contains no frontmatter, the fragment and trailing newline only, since
frontmatter requires the daily-note flag to be true. -/
theorem append_fallback_daily_no_frontmatter (config : Config) (note : Note)
    (now : DateTime) (cwd : Path) (fs : FS)
    (h1 : note.use_daily_note = false)
    (h2 : note.target_file = none)
    (h3 : containment_ok config cwd (get_daily_note_path config now) = true)
    (h4 : fs (get_daily_note_path config now) = none) :
    (append_to_note config note none now cwd fs).1 = get_daily_note_path config now
    ∧ (append_to_note config note none now cwd fs).2 (get_daily_note_path config now)
      = some (note.format_content config.include_timestamp config.timestamp_format
          ++ "\n") := by
  have hc : resolve_candidate config note none now = get_daily_note_path config now := by
    simp [resolve_candidate, h1, h2]
  have ht : resolve_target config note none now cwd = get_daily_note_path config now := by
    simp [resolve_target, hc, h3]
  constructor
  · simpa [append_to_note] using ht
  · simp [append_to_note, ht, read_note_file, h4, write_note_file, h1]

/-- Instantiation of `append_fallback_daily_no_frontmatter` at concrete
inputs: the note carries a timestamp, yet no frontmatter is written. -/
theorem append_fallback_daily_no_frontmatter_witness :
    (append_to_note cfgV noteOff none now16 rootPath fsEmpty).1
        = get_daily_note_path cfgV now16
    ∧ (append_to_note cfgV noteOff none now16 rootPath fsEmpty).2
        (get_daily_note_path cfgV now16)
      = some (noteOff.format_content cfgV.include_timestamp cfgV.timestamp_format
          ++ "\n") :=
  append_fallback_daily_no_frontmatter cfgV noteOff now16 rootPath fsEmpty
    rfl rfl (by decide) rfl

end Termilink
